import Mathlib

/-!
Shallow embedding of the HUE usage-enforcement engine (Go sources:
internal/engine, internal/storage/cache, internal/storage/sqlite,
internal/eventstore, internal/domain).  Machine integers are modelled as
`Int` (Go int64), wall-clock instants as `Int`, identifiers as `String`.
Database tables are association lists keyed by their primary key; SQL
`UPDATE ... WHERE id = ?` becomes a `List.map` guarded on the key.
Potentially non-terminating loops (the manager ancestor walk) take explicit
fuel and return `none` when the fuel runs out before the loop exits.
-/

namespace HUE

/-- User status values (internal/domain, part_007). -/
inductive UserStatus
  | active
  | suspended
  | expired
  | finish
  | inactive
deriving DecidableEq, Repr

/-- Package status values (internal/domain, part_005). -/
inductive PackageStatus
  | active
  | expired
  | finish
  | suspended
deriving DecidableEq, Repr

/-- Manager package status values (internal/domain, part_004). -/
inductive MPkgStatus
  | active
  | inactive
deriving DecidableEq, Repr

/-- Manager-limit enforcement mode (internal/domain, part_004). -/
inductive EnforcementMode
  | soft
  | dflt
  | hard
deriving DecidableEq, Repr

/-- Event types (internal/domain, part_006). -/
inductive EventType
  | userConnected
  | userDisconnected
  | usageRecorded
  | packageExpired
  | packageReset
  | nodeReset
  | userSuspended
  | userActivated
  | penaltyApplied
  | penaltyExpired
deriving DecidableEq, Repr

/-- Render a user status the way Go's %s formats the string constant. -/
def UserStatus.str : UserStatus → String
  | .active => "active"
  | .suspended => "suspended"
  | .expired => "expired"
  | .finish => "finish"
  | .inactive => "inactive"

/-- Render a package status the way Go's %s formats the string constant. -/
def PackageStatus.str : PackageStatus → String
  | .active => "active"
  | .expired => "expired"
  | .finish => "finish"
  | .suspended => "suspended"

/-- Domain user row (fields relevant to the engine). -/
structure User where
  id : String
  managerId : Option String
  username : String
  status : UserStatus
  activePackageId : Option String
  lastConnectionAt : Option Int
deriving DecidableEq, Repr

/-- User.IsActive (part_007). -/
def User.isActive (u : User) : Bool :=
  u.status == .active

/-- User.CanConnect (part_007): active status and an active-package reference. -/
def User.canConnect (u : User) : Bool :=
  u.isActive && u.activePackageId.isSome

/-- Domain package as the Go struct sees it (TotalLimit and TotalTraffic both present). -/
structure Package where
  id : String
  userId : String
  totalLimit : Int
  totalTraffic : Int
  uploadLimit : Int
  downloadLimit : Int
  maxConcurrent : Int
  status : PackageStatus
  currentUpload : Int
  currentDownload : Int
  currentTotal : Int
  expiresAt : Option Int
deriving DecidableEq, Repr

/-- Package.IsActive (part_005). -/
def Package.isActive (p : Package) : Bool :=
  p.status == .active

/-- Package.IsExpired (part_005): time.Now().After(expiresAt), false when unset. -/
def Package.isExpired (p : Package) (now : Int) : Bool :=
  match p.expiresAt with
  | none => false
  | some t => now > t

/-- Package.HasTrafficRemaining (part_005): prefer TotalLimit, fall back to TotalTraffic, 0 = unlimited. -/
def Package.hasTrafficRemaining (p : Package) : Bool :=
  let total := if p.totalLimit == 0 then p.totalTraffic else p.totalLimit
  if total == 0 then true else p.currentTotal < total

/-- Package.CanUse (part_005): active, not expired, traffic remaining. -/
def Package.canUse (p : Package) (now : Int) : Bool :=
  p.isActive && !p.isExpired now && p.hasTrafficRemaining

/-- Row of the packages table (the schema stores only total_traffic; part_008 Migrate). -/
structure PackageRow where
  id : String
  userId : String
  totalTraffic : Int
  uploadLimit : Int
  downloadLimit : Int
  maxConcurrent : Int
  status : PackageStatus
  currentUpload : Int
  currentDownload : Int
  currentTotal : Int
  expiresAt : Option Int
deriving DecidableEq, Repr

/-- Scanning a package row sets TotalLimit := TotalTraffic (part_008 GetPackage). -/
def PackageRow.toDomain (r : PackageRow) : Package :=
  { id := r.id, userId := r.userId, totalLimit := r.totalTraffic,
    totalTraffic := r.totalTraffic, uploadLimit := r.uploadLimit,
    downloadLimit := r.downloadLimit, maxConcurrent := r.maxConcurrent,
    status := r.status, currentUpload := r.currentUpload,
    currentDownload := r.currentDownload, currentTotal := r.currentTotal,
    expiresAt := r.expiresAt }

/-- Row of the nodes table (aggregate counters only). -/
structure NodeRow where
  id : String
  currentUpload : Int
  currentDownload : Int
deriving DecidableEq, Repr

/-- Row of the services table (aggregate counters only). -/
structure ServiceRow where
  id : String
  currentUpload : Int
  currentDownload : Int
deriving DecidableEq, Repr

/-- Row of the managers table: id and optional parent reference. -/
structure ManagerRow where
  id : String
  parentId : Option String
deriving DecidableEq, Repr

/-- Manager package (domain and manager_packages row coincide; part_004, part_008). -/
structure ManagerPackage where
  managerId : String
  totalLimit : Int
  uploadLimit : Int
  downloadLimit : Int
  maxSessions : Int
  maxOnlineUsers : Int
  maxActiveUsers : Int
  status : MPkgStatus
  currentUpload : Int
  currentDownload : Int
  currentTotal : Int
  currentSessions : Int
  currentOnline : Int
  currentActive : Int
deriving DecidableEq, Repr

/-- ManagerPackage.IsActive (part_004). -/
def ManagerPackage.isActive (p : ManagerPackage) : Bool :=
  p.status == .active

/-- Domain manager handed to CreateManager. -/
structure Manager where
  id : String
  name : String
  parentId : Option String
  pkg : Option ManagerPackage
deriving DecidableEq, Repr

/-- The metadata store (UserDB): users, packages, nodes, services, managers, manager_packages. -/
structure Db where
  users : List User
  packages : List PackageRow
  nodes : List NodeRow
  services : List ServiceRow
  managers : List ManagerRow
  managerPackages : List ManagerPackage
deriving DecidableEq, Repr

/-- UserDB.GetUser: SELECT by primary key. -/
def Db.getUser (db : Db) (id : String) : Option User :=
  db.users.find? (fun u => u.id == id)

/-- UserDB.GetPackage: SELECT by primary key, then TotalLimit := TotalTraffic. -/
def Db.getPackage (db : Db) (id : String) : Option Package :=
  (db.packages.find? (fun p => p.id == id)).map PackageRow.toDomain

/-- UserDB.GetPackageByUserID: JOIN users u ON u.active_package_id = p.id WHERE u.id = ?. -/
def Db.getPackageByUserID (db : Db) (userId : String) : Option Package :=
  match db.getUser userId with
  | none => none
  | some u =>
    match u.activePackageId with
    | none => none
    | some pid => db.getPackage pid

/-- UserDB.UpdatePackageUsage: server-side counter += delta arithmetic. -/
def Db.updatePackageUsage (db : Db) (id : String) (upload download : Int) : Db :=
  { db with packages := db.packages.map (fun p =>
      if p.id == id then
        { p with currentUpload := p.currentUpload + upload,
                 currentDownload := p.currentDownload + download,
                 currentTotal := p.currentTotal + (upload + download) }
      else p) }

/-- UserDB.UpdatePackageStatus. -/
def Db.updatePackageStatus (db : Db) (id : String) (status : PackageStatus) : Db :=
  { db with packages := db.packages.map (fun p =>
      if p.id == id then { p with status := status } else p) }

/-- UserDB.UpdateUserStatus. -/
def Db.updateUserStatus (db : Db) (id : String) (status : UserStatus) : Db :=
  { db with users := db.users.map (fun u =>
      if u.id == id then { u with status := status } else u) }

/-- UserDB.UpdateUserLastConnection. -/
def Db.updateUserLastConnection (db : Db) (id : String) (now : Int) : Db :=
  { db with users := db.users.map (fun u =>
      if u.id == id then { u with lastConnectionAt := some now } else u) }

/-- UserDB.UpdateNodeUsage: node counter += delta. -/
def Db.updateNodeUsage (db : Db) (id : String) (upload download : Int) : Db :=
  { db with nodes := db.nodes.map (fun n =>
      if n.id == id then
        { n with currentUpload := n.currentUpload + upload,
                 currentDownload := n.currentDownload + download }
      else n) }

/-- UserDB.UpdateServiceUsage: service counter += delta. -/
def Db.updateServiceUsage (db : Db) (id : String) (upload download : Int) : Db :=
  { db with services := db.services.map (fun s =>
      if s.id == id then
        { s with currentUpload := s.currentUpload + upload,
                 currentDownload := s.currentDownload + download }
      else s) }

/-- UserDB.GetManagerPackage: SELECT by manager_id. -/
def Db.getManagerPackage (db : Db) (managerId : String) : Option ManagerPackage :=
  db.managerPackages.find? (fun p => p.managerId == managerId)

/-- One pass of the GetManagerAncestors loop body after appending `current`:
`none` when the loop breaks (row missing, parent NULL or empty), otherwise
the next `current`. -/
def ancestorNext (managers : List ManagerRow) (current : String) : Option String :=
  match managers.find? (fun m => m.id == current) with
  | none => none
  | some m =>
    match m.parentId with
    | none => none
    | some p => if p == "" then none else some p

/-- UserDB.GetManagerAncestors (part_008:1175): follow parent_id from the start
manager until a root or a missing row.  The Go loop has no cycle detection, so
it is embedded with fuel: `none` means the loop was still running when the
fuel ran out. -/
def getManagerAncestors (managers : List ManagerRow) : Nat → String → Option (List String)
  | 0, _ => none
  | fuel + 1, current =>
    if current == "" then some []
    else
      match ancestorNext managers current with
      | none => some [current]
      | some p => (getManagerAncestors managers fuel p).map (fun rest => current :: rest)

/-- Result of UserDB.CheckManagerLimits. -/
structure ManagerLimitCheckResult where
  allowed : Bool
  managerId : String
  reason : String
deriving DecidableEq, Repr

/-- The per-ancestor body of UserDB.CheckManagerLimits: skip missing or
inactive packages, otherwise test the six projected counters against positive
limits in source order and deny at the first offender. -/
def checkAncestorLimits (db : Db) (upload download sessionDelta onlineDelta activeDelta : Int) :
    List String → ManagerLimitCheckResult
  | [] => { allowed := true, managerId := "", reason := "" }
  | id :: rest =>
    match db.getManagerPackage id with
    | none => checkAncestorLimits db upload download sessionDelta onlineDelta activeDelta rest
    | some pkg =>
      if !pkg.isActive then
        checkAncestorLimits db upload download sessionDelta onlineDelta activeDelta rest
      else
        let projectedUpload := pkg.currentUpload + upload
        let projectedDownload := pkg.currentDownload + download
        let projectedTotal := pkg.currentTotal + upload + download
        let projectedSessions := pkg.currentSessions + sessionDelta
        let projectedOnline := pkg.currentOnline + onlineDelta
        let projectedActive := pkg.currentActive + activeDelta
        if pkg.totalLimit > 0 && projectedTotal > pkg.totalLimit then
          { allowed := false, managerId := id, reason := "manager total limit reached" }
        else if pkg.uploadLimit > 0 && projectedUpload > pkg.uploadLimit then
          { allowed := false, managerId := id, reason := "manager upload limit reached" }
        else if pkg.downloadLimit > 0 && projectedDownload > pkg.downloadLimit then
          { allowed := false, managerId := id, reason := "manager download limit reached" }
        else if pkg.maxSessions > 0 && projectedSessions > pkg.maxSessions then
          { allowed := false, managerId := id, reason := "manager max sessions reached" }
        else if pkg.maxOnlineUsers > 0 && projectedOnline > pkg.maxOnlineUsers then
          { allowed := false, managerId := id, reason := "manager max online users reached" }
        else if pkg.maxActiveUsers > 0 && projectedActive > pkg.maxActiveUsers then
          { allowed := false, managerId := id, reason := "manager max active users reached" }
        else
          checkAncestorLimits db upload download sessionDelta onlineDelta activeDelta rest

/-- UserDB.CheckManagerLimits (part_008:1196). -/
def Db.checkManagerLimits (db : Db) (managerId : String)
    (upload download sessionDelta onlineDelta activeDelta : Int) (fuel : Nat) :
    Option ManagerLimitCheckResult :=
  if managerId == "" then some { allowed := true, managerId := "", reason := "" }
  else
    (getManagerAncestors db.managers fuel managerId).map
      (checkAncestorLimits db upload download sessionDelta onlineDelta activeDelta)

/-- The clamped counter update one UPDATE of ApplyManagerUsageDelta performs. -/
def clampApply (upload download sessionDelta onlineDelta activeDelta : Int)
    (p : ManagerPackage) : ManagerPackage :=
  { p with currentUpload := max 0 (p.currentUpload + upload),
           currentDownload := max 0 (p.currentDownload + download),
           currentTotal := max 0 (p.currentTotal + (upload + download)),
           currentSessions := max 0 (p.currentSessions + sessionDelta),
           currentOnline := max 0 (p.currentOnline + onlineDelta),
           currentActive := max 0 (p.currentActive + activeDelta) }

/-- The transaction body of ApplyManagerUsageDelta: one clamped UPDATE per ancestor id. -/
def applyToChain (upload download sessionDelta onlineDelta activeDelta : Int)
    (rows : List ManagerPackage) (chain : List String) : List ManagerPackage :=
  chain.foldl (fun acc id =>
    acc.map (fun p =>
      if p.managerId == id then clampApply upload download sessionDelta onlineDelta activeDelta p
      else p)) rows

/-- UserDB.ApplyManagerUsageDelta (part_008:1245): walk the ancestor chain and
update every ancestor row with MAX(0, current + delta) in one transaction. -/
def Db.applyManagerUsageDelta (db : Db) (managerId : String)
    (upload download sessionDelta onlineDelta activeDelta : Int) (fuel : Nat) : Option Db :=
  if managerId == "" then some db
  else
    (getManagerAncestors db.managers fuel managerId).map (fun chain =>
      { db with managerPackages :=
          (applyToChain upload download sessionDelta onlineDelta activeDelta
            db.managerPackages chain) })

/-- validateChildPackageAgainstParent (part_008:1287): `none` when creation may
proceed, otherwise the error message of the first violated bound. -/
def validateChildPackageAgainstParent (child parent : ManagerPackage) : Option String :=
  if parent.totalLimit > 0 && child.totalLimit > parent.totalLimit then
    some "child total_limit exceeds parent"
  else if parent.uploadLimit > 0 && child.uploadLimit > parent.uploadLimit then
    some "child upload_limit exceeds parent"
  else if parent.downloadLimit > 0 && child.downloadLimit > parent.downloadLimit then
    some "child download_limit exceeds parent"
  else if parent.maxSessions > 0 && child.maxSessions > parent.maxSessions then
    some "child max_sessions exceeds parent"
  else if parent.maxOnlineUsers > 0 && child.maxOnlineUsers > parent.maxOnlineUsers then
    some "child max_online_users exceeds parent"
  else if parent.maxActiveUsers > 0 && child.maxActiveUsers > parent.maxActiveUsers then
    some "child max_active_users exceeds parent"
  else none

/-- UserDB.CreateManager (part_008:1042): validate against the direct parent
package when a parent reference is set, then insert manager and package rows. -/
def Db.createManager (db : Db) (m : Manager) : Except String Db :=
  match m.pkg with
  | none => .error "manager and manager package are required"
  | some pkg =>
    let insert : Db :=
      { db with managers := db.managers ++ [{ id := m.id, parentId := m.parentId }],
                managerPackages := db.managerPackages ++ [{ pkg with managerId := m.id }] }
    match m.parentId with
    | none => .ok insert
    | some p =>
      if p == "" then .ok insert
      else
        match db.getManagerPackage p with
        | none => .error "parent manager package not found"
        | some parentPkg =>
          match validateChildPackageAgainstParent pkg parentPkg with
          | some msg => .error msg
          | none => .ok insert

/-- Cached user entry (internal/storage/cache/memory.go). -/
structure UserCacheEntry where
  userId : String
  status : UserStatus
  activePackageId : Option String
  currentUpload : Int
  currentDownload : Int
  currentTotal : Int
  maxConcurrent : Int
deriving DecidableEq, Repr

/-- In-memory session entry (memory.go). -/
structure SessionEntry where
  sessionId : String
  ipHash : String
  country : String
  city : String
  isp : String
  startedAt : Int
  lastSeenAt : Int
deriving DecidableEq, Repr

/-- In-memory penalty entry (memory.go). -/
structure PenaltyEntry where
  userId : String
  reason : String
  appliedAt : Int
  expiresAt : Int
deriving DecidableEq, Repr

/-- Pending disconnect command (memory.go). -/
structure DisconnectCommand where
  userId : String
  sessionId : String
  reason : String
  nodeId : String
deriving DecidableEq, Repr

/-- The MemoryCache: user entries, per-user session tables, penalties, disconnect queue. -/
structure Cache where
  users : List UserCacheEntry
  sessions : List (String × List SessionEntry)
  penalties : List PenaltyEntry
  disconnectQueue : List DisconnectCommand
deriving DecidableEq, Repr

/-- The empty cache produced by NewMemoryCache. -/
def Cache.empty : Cache :=
  { users := [], sessions := [], penalties := [], disconnectQueue := [] }

/-- MemoryCache.GetUser. -/
def Cache.getUser (c : Cache) (userId : String) : Option UserCacheEntry :=
  c.users.find? (fun e => e.userId == userId)

/-- MemoryCache.SetUser (memory.go:94): sync.Map Store of a fresh entry whose
counter fields are the zero values of the struct literal. -/
def Cache.setUser (c : Cache) (userId : String) (status : UserStatus)
    (packageId : Option String) (maxConcurrent : Int) : Cache :=
  { c with users :=
      { userId := userId, status := status, activePackageId := packageId,
        currentUpload := 0, currentDownload := 0, currentTotal := 0,
        maxConcurrent := maxConcurrent } :: c.users.filter (fun e => e.userId != userId) }

/-- MemoryCache.UpdateUserUsage: in-place increments when an entry exists. -/
def Cache.updateUserUsage (c : Cache) (userId : String) (upload download : Int) : Cache :=
  { c with users := c.users.map (fun e =>
      if e.userId == userId then
        { e with currentUpload := e.currentUpload + upload,
                 currentDownload := e.currentDownload + download,
                 currentTotal := e.currentTotal + (upload + download) }
      else e) }

/-- MemoryCache.DeleteUser: drop the user from users, sessions and penalties. -/
def Cache.deleteUser (c : Cache) (userId : String) : Cache :=
  { c with users := c.users.filter (fun e => e.userId != userId),
           sessions := c.sessions.filter (fun s => s.1 != userId),
           penalties := c.penalties.filter (fun p => p.userId != userId) }

/-- The session table of one user (empty when no table exists yet, matching
GetOrCreateSessionCache observationally). -/
def Cache.getSessions (c : Cache) (userId : String) : List SessionEntry :=
  ((c.sessions.find? (fun s => s.1 == userId)).map Prod.snd).getD []

/-- Replace the session table of one user. -/
def Cache.setSessions (c : Cache) (userId : String) (l : List SessionEntry) : Cache :=
  { c with sessions := (userId, l) :: c.sessions.filter (fun s => s.1 != userId) }

/-- SessionCache.HasSession. -/
def hasSession (l : List SessionEntry) (sessionId : String) : Bool :=
  l.any (fun s => s.sessionId == sessionId)

/-- SessionCache.UpdateSessionLastSeen: touch last_seen_at when present. -/
def updateSessionLastSeen (l : List SessionEntry) (sessionId : String) (now : Int) :
    List SessionEntry :=
  l.map (fun s => if s.sessionId == sessionId then { s with lastSeenAt := now } else s)

/-- SessionCache.GetActiveSessionCount: sessions whose last_seen_at is within the window. -/
def activeSessionCount (l : List SessionEntry) (now window : Int) : Nat :=
  (l.filter (fun s => now - s.lastSeenAt ≤ window)).length

/-- SessionCache.AddSession: map assignment keyed by session id. -/
def addSessionEntry (l : List SessionEntry) (sessionId ipHash country city isp : String)
    (now : Int) : List SessionEntry :=
  { sessionId := sessionId, ipHash := ipHash, country := country, city := city,
    isp := isp, startedAt := now, lastSeenAt := now } ::
    l.filter (fun s => s.sessionId != sessionId)

/-- SessionCache.RemoveStaleSessions: drop entries with now - last_seen_at > window. -/
def removeStaleSessions (l : List SessionEntry) (now window : Int) : List SessionEntry :=
  l.filter (fun s => !(now - s.lastSeenAt > window))

/-- MemoryCache.SetPenalty: store entry with applied_at = now, expires_at = now + duration. -/
def Cache.setPenalty (c : Cache) (userId reason : String) (now duration : Int) : Cache :=
  { c with penalties :=
      { userId := userId, reason := reason, appliedAt := now, expiresAt := now + duration } ::
        c.penalties.filter (fun p => p.userId != userId) }

/-- MemoryCache.GetPenalty (memory.go:231): lazily delete an entry the read
observes as expired (time.Now().After(expiresAt), i.e. now strictly past it). -/
def Cache.getPenalty (c : Cache) (userId : String) (now : Int) :
    Option PenaltyEntry × Cache :=
  match c.penalties.find? (fun p => p.userId == userId) with
  | none => (none, c)
  | some e =>
    if now > e.expiresAt then
      (none, { c with penalties := c.penalties.filter (fun p => p.userId != userId) })
    else (some e, c)

/-- MemoryCache.ClearPenalty. -/
def Cache.clearPenalty (c : Cache) (userId : String) : Cache :=
  { c with penalties := c.penalties.filter (fun p => p.userId != userId) }

/-- MemoryCache.QueueDisconnect: FIFO append. -/
def Cache.queueDisconnect (c : Cache) (userId sessionId reason nodeId : String) : Cache :=
  { c with disconnectQueue := c.disconnectQueue ++
      [{ userId := userId, sessionId := sessionId, reason := reason, nodeId := nodeId }] }

/-- MemoryCache.GetDisconnectBatch: atomically swap the queue for an empty one. -/
def Cache.getDisconnectBatch (c : Cache) : List DisconnectCommand × Cache :=
  (c.disconnectQueue, { c with disconnectQueue := [] })

/-- Extracted geo information (internal/domain). -/
structure GeoData where
  country : String
  city : String
  isp : String
deriving DecidableEq, Repr

/-- Result of SessionManager.CheckSession. -/
structure SessionResult where
  userId : String
  sessionId : String
  allowed : Bool
  currentCount : Nat
  maxConcurrent : Int
  sessionLimitHit : Bool
  reason : String
  isNewSession : Bool
deriving DecidableEq, Repr

/-- SessionManager.CheckSession (part_003:465): touch an existing session and
allow it; otherwise test the in-window count against the concurrency cap. -/
def checkSession (c : Cache) (window now : Int) (userId sessionId : String)
    (maxConcurrent : Int) : SessionResult × Cache :=
  let base : SessionResult :=
    { userId := userId, sessionId := sessionId, allowed := false, currentCount := 0,
      maxConcurrent := maxConcurrent, sessionLimitHit := false, reason := "",
      isNewSession := false }
  let l := c.getSessions userId
  if hasSession l sessionId then
    let l2 := updateSessionLastSeen l sessionId now
    ({ base with allowed := true, isNewSession := false,
                 currentCount := activeSessionCount l2 now window },
      c.setSessions userId l2)
  else
    let cnt := activeSessionCount l now window
    if maxConcurrent > 0 && (cnt : Int) ≥ maxConcurrent then
      ({ base with allowed := false, sessionLimitHit := true, currentCount := cnt,
                   reason := "max concurrent sessions exceeded" }, c)
    else
      ({ base with allowed := true, isNewSession := true, currentCount := cnt }, c)

/-- SessionManager.hashIP (part_003:573): empty input hashes to the empty
string; the SHA-256-with-daily-salt digest is abstracted as `hashFn`. -/
def hashIP (hashFn : String → String) (ip : String) : String :=
  if ip == "" then "" else hashFn ip

/-- SessionManager.AddSession (part_003:510): hash the IP, take geo fields from
the optional GeoData, store the entry. -/
def smAddSession (hashFn : String → String) (c : Cache)
    (userId sessionId clientIP : String) (geo : Option GeoData) (now : Int) : Cache :=
  let h := hashIP hashFn clientIP
  let country := (geo.map GeoData.country).getD ""
  let city := (geo.map GeoData.city).getD ""
  let isp := (geo.map GeoData.isp).getD ""
  c.setSessions userId (addSessionEntry (c.getSessions userId) sessionId h country city isp now)

/-- SessionManager.RemoveSession. -/
def smRemoveSession (c : Cache) (userId sessionId : String) : Cache :=
  c.setSessions userId ((c.getSessions userId).filter (fun s => s.sessionId != sessionId))

/-- Result of PenaltyHandler.CheckPenalty. -/
structure PenaltyResult where
  userId : String
  hasPenalty : Bool
  reason : String
  expiresAt : Int
deriving DecidableEq, Repr

/-- PenaltyHandler.CheckPenalty (geo.go:135): wrap the lazily-deleting cache read. -/
def checkPenalty (c : Cache) (userId : String) (now : Int) : PenaltyResult × Cache :=
  match c.getPenalty userId now with
  | (none, c1) => ({ userId := userId, hasPenalty := false, reason := "", expiresAt := 0 }, c1)
  | (some e, c1) =>
    ({ userId := userId, hasPenalty := true, reason := e.reason, expiresAt := e.expiresAt }, c1)

/-- PenaltyHandler.ApplyPenalty (geo.go:161): set the penalty entry, then queue
one disconnect per current session of the user carrying the penalty reason. -/
def applyPenalty (c : Cache) (userId reason : String) (now duration : Int) : Cache :=
  let c1 := c.setPenalty userId reason now duration
  (c1.getSessions userId).foldl
    (fun acc s => acc.queueDisconnect userId s.sessionId reason "") c1

/-- Result of QuotaEngine.CheckQuota (part_003). -/
structure QuotaResult where
  userId : String
  canUse : Bool
  reason : String
  quotaExceeded : Bool
  pkg : Option Package
  cached : Bool
deriving DecidableEq, Repr

/-- QuotaEngine.checkTrafficLimits (part_003:390): true when no positive limit
would be exceeded by current + delta. -/
def checkTrafficLimits (pkg : Package) (upload download : Int) : Bool :=
  if pkg.totalTraffic > 0 && pkg.currentTotal + upload + download > pkg.totalTraffic then false
  else if pkg.uploadLimit > 0 && pkg.currentUpload + upload > pkg.uploadLimit then false
  else if pkg.downloadLimit > 0 && pkg.currentDownload + download > pkg.downloadLimit then false
  else true

/-- QuotaEngine.checkManagerLimitsByUser (part_003:309): allow users without a
manager reference, otherwise delegate to UserDB.CheckManagerLimits. -/
def checkManagerLimitsByUser (db : Db) (user : Option User)
    (upload download sessionDelta onlineDelta activeDelta : Int) (fuel : Nat) :
    Option ManagerLimitCheckResult :=
  match user with
  | none => some { allowed := true, managerId := "", reason := "" }
  | some u =>
    match u.managerId with
    | none => some { allowed := true, managerId := "", reason := "" }
    | some mid =>
      if mid == "" then some { allowed := true, managerId := "", reason := "" }
      else db.checkManagerLimits mid upload download sessionDelta onlineDelta activeDelta fuel

/-- QuotaEngine.checkManagerLimitsByUserID (part_003:301): read the user from
the database, then check by user. -/
def checkManagerLimitsByUserID (db : Db) (userId : String)
    (upload download sessionDelta onlineDelta activeDelta : Int) (fuel : Nat) :
    Option ManagerLimitCheckResult :=
  checkManagerLimitsByUser db (db.getUser userId)
    upload download sessionDelta onlineDelta activeDelta fuel

/-- The cached branch of QuotaEngine.CheckQuota (part_003:72-157). -/
def checkQuotaCached (mode : EnforcementMode) (db : Db) (c : Cache)
    (userId : String) (cu : UserCacheEntry) (upload download now : Int) (fuel : Nat) :
    Option (QuotaResult × Cache) :=
  let base : QuotaResult :=
    { userId := userId, canUse := false, reason := "", quotaExceeded := false,
      pkg := none, cached := true }
  if cu.status != .active then
    some ({ base with reason := "user status is " ++ cu.status.str }, c)
  else
    match cu.activePackageId with
    | none => some ({ base with reason := "no active package" }, c)
    | some pid =>
      match db.getPackage pid with
      | none => some ({ base with reason := "package not found" }, c)
      | some pkg =>
        let base := { base with pkg := some pkg }
        if !pkg.isActive then
          some ({ base with reason := "package status is " ++ pkg.status.str }, c)
        else if pkg.isExpired now then
          some ({ base with reason := "package expired" }, c)
        else if pkg.totalTraffic > 0 && cu.currentTotal + upload + download > pkg.totalTraffic then
          some ({ base with reason := "total traffic quota exceeded", quotaExceeded := true }, c)
        else if pkg.uploadLimit > 0 && cu.currentUpload + upload > pkg.uploadLimit then
          some ({ base with reason := "upload quota exceeded", quotaExceeded := true }, c)
        else if pkg.downloadLimit > 0 && cu.currentDownload + download > pkg.downloadLimit then
          some ({ base with reason := "download quota exceeded", quotaExceeded := true }, c)
        else
          (checkManagerLimitsByUserID db userId upload download 0 0 0 fuel).map (fun mgrRes =>
            if !mgrRes.allowed then
              ({ base with canUse := (mode == .soft), quotaExceeded := true,
                           reason := mgrRes.reason }, c)
            else ({ base with canUse := true }, c))

/-- The cache-miss branch of QuotaEngine.CheckQuota (part_003:159-218). -/
def checkQuotaMiss (mode : EnforcementMode) (db : Db) (c : Cache)
    (userId : String) (upload download now : Int) (fuel : Nat) :
    Option (QuotaResult × Cache) :=
  let base : QuotaResult :=
    { userId := userId, canUse := false, reason := "", quotaExceeded := false,
      pkg := none, cached := false }
  match db.getUser userId with
  | none => some ({ base with reason := "user not found" }, c)
  | some user =>
    let c1 := c.setUser userId user.status user.activePackageId 0
    if !user.canConnect then
      some ({ base with reason := "user cannot connect: status=" ++ user.status.str }, c1)
    else
      match db.getPackageByUserID userId with
      | none => some ({ base with reason := "no active package" }, c1)
      | some pkg =>
        let base := { base with pkg := some pkg }
        let c2 := c1.setUser userId user.status user.activePackageId pkg.maxConcurrent
        if !pkg.canUse now then
          some ({ base with reason := "package cannot be used: status=" ++ pkg.status.str ++
                    ", expired=" ++ (toString (pkg.isExpired now)) }, c2)
        else if !checkTrafficLimits pkg upload download then
          some ({ base with reason := "traffic quota exceeded", quotaExceeded := true }, c2)
        else
          (checkManagerLimitsByUser db (some user) upload download 0 0 0 fuel).map
            (fun mgrRes =>
              if !mgrRes.allowed then
                ({ base with canUse := (mode == .soft), quotaExceeded := true,
                             reason := mgrRes.reason }, c2)
              else ({ base with canUse := true }, c2))

/-- QuotaEngine.CheckQuota (part_003:57): cached branch when the user cache
holds an entry, otherwise the database branch. -/
def checkQuota (mode : EnforcementMode) (db : Db) (c : Cache) (userId : String)
    (upload download now : Int) (fuel : Nat) : Option (QuotaResult × Cache) :=
  match c.getUser userId with
  | some cu => checkQuotaCached mode db c userId cu upload download now fuel
  | none => checkQuotaMiss mode db c userId upload download now fuel

/-- QuotaEngine.RecordUsage (part_003:222): increment package counters, apply
the manager delta, update the cache, touch last connection, and flip package
and user to finish when no traffic remains.  `Except.error` mirrors the Go
error return (only possible before any mutation). -/
def recordUsage (db : Db) (c : Cache) (userId : String) (upload download now : Int)
    (fuel : Nat) : Option (Except String (Db × Cache)) :=
  match db.getPackageByUserID userId with
  | none => some (.error ("no active package for user " ++ userId))
  | some pkg =>
    let db1 := db.updatePackageUsage pkg.id upload download
    let afterMgr : Option Db :=
      match db1.getUser userId with
      | some u =>
        match u.managerId with
        | some mid => db1.applyManagerUsageDelta mid upload download 0 0 0 fuel
        | none => some db1
      | none => some db1
    afterMgr.map (fun db2 =>
      let c1 := c.updateUserUsage userId upload download
      let db3 := db2.updateUserLastConnection userId now
      match db3.getPackage pkg.id with
      | some pkg2 =>
        if !pkg2.hasTrafficRemaining then
          let db4 := db3.updatePackageStatus pkg.id .finish
          let db5 := db4.updateUserStatus userId .finish
          let c2 := c1.setUser userId .finish (some pkg2.id) pkg2.maxConcurrent
          .ok (db5, c2)
        else .ok (db3, c1)
      | none => .ok (db3, c1))

/-- QuotaEngine.CheckAndEnforceQuota (part_003:329): run CheckQuota with zero
deltas, re-test the (database-read) package counters with ≥ against positive
limits, and on a blocked quota-exceeded outcome suspend the user and queue a
disconnect with reason quota_exceeded. -/
def checkAndEnforceQuota (mode : EnforcementMode) (db : Db) (c : Cache)
    (userId : String) (now : Int) (fuel : Nat) : Option (QuotaResult × Db × Cache) :=
  (checkQuota mode db c userId 0 0 now fuel).map (fun rc =>
    let r := rc.1
    let c1 := rc.2
    let pkgSel : Option Package :=
      match r.pkg with
      | some p => some p
      | none => db.getPackageByUserID userId
    let r2 : QuotaResult :=
      match pkgSel with
      | none => r
      | some pkg =>
        if (pkg.totalTraffic > 0 && pkg.currentTotal ≥ pkg.totalTraffic)
            || (pkg.uploadLimit > 0 && pkg.currentUpload ≥ pkg.uploadLimit)
            || (pkg.downloadLimit > 0 && pkg.currentDownload ≥ pkg.downloadLimit) then
          { r with canUse := false, quotaExceeded := true, reason := "traffic quota exceeded" }
        else r
    if !r2.canUse && r2.quotaExceeded then
      (r2, db.updateUserStatus userId .suspended,
        c1.queueDisconnect userId "" "quota_exceeded" "")
    else (r2, db, c1))

/-- QuotaEngine.RefreshCache (part_003:369): drop missing users, otherwise
re-seed the entry from the database with the package's concurrency cap. -/
def refreshCache (db : Db) (c : Cache) (userId : String) : Cache :=
  match db.getUser userId with
  | none => c.deleteUser userId
  | some user =>
    let maxConcurrent :=
      match db.getPackageByUserID userId with
      | some pkg => pkg.maxConcurrent
      | none => 1
    c.setUser userId user.status user.activePackageId maxConcurrent

/-- Immutable event record (internal/domain, part_006), without the generated
UUID and wall-clock timestamp. -/
structure Event where
  type : EventType
  userId : Option String
  packageId : Option String
  nodeId : Option String
  serviceId : Option String
  tags : List String
deriving DecidableEq, Repr

/-- Usage report entering the pipeline (internal/domain, part_006). -/
structure UsageReport where
  id : String
  userId : String
  nodeId : String
  serviceId : String
  upload : Int
  download : Int
  sessionId : String
  clientIP : String
  tags : List String
  timestamp : Int
deriving DecidableEq, Repr

/-- Result of Engine.ProcessUsageReport (internal/domain, part_006). -/
structure UsageReportResult where
  userId : String
  packageId : String
  accepted : Bool
  quotaExceeded : Bool
  sessionLimitHit : Bool
  penaltyApplied : Bool
  shouldDisconnect : Bool
  reason : String
deriving DecidableEq, Repr

/-- Engine state threaded through the pipeline: metadata store, in-memory
cache, and the ordered trace of stored events. -/
structure EngState where
  db : Db
  cache : Cache
  events : List Event
deriving DecidableEq, Repr

/-- Pipeline environment: enforcement mode, session window, penalty duration,
the abstracted IP hash, the geo collaborator, and whether an event store is
attached. -/
structure EngineEnv where
  mode : EnforcementMode
  window : Int
  penaltyDuration : Int
  hashFn : String → String
  geoReady : Bool
  extractGeo : String → GeoData
  eventsEnabled : Bool

/-- Engine.emitEvent (engine.go:187): append to the event store unless none is
configured. -/
def emitEvent (env : EngineEnv) (st : EngState) (t : EventType)
    (userId packageId nodeId serviceId : Option String) (tags : List String) : EngState :=
  if env.eventsEnabled then
    { st with events := st.events ++
        [{ type := t, userId := userId, packageId := packageId, nodeId := nodeId,
           serviceId := serviceId, tags := tags }] }
  else st

/-- Engine.ProcessUsageReport (engine.go:50): penalty check, package load,
session check (penalty on limit hit), quota check (suspend on quota excess),
geo extraction, session add, usage recording, node/service aggregates, event
emission, and the post-record exhaustion check. -/
def processUsageReport (env : EngineEnv) (st : EngState) (report : UsageReport)
    (now : Int) (fuel : Nat) : Option (UsageReportResult × EngState) :=
  let base : UsageReportResult :=
    { userId := report.userId, packageId := "", accepted := false, quotaExceeded := false,
      sessionLimitHit := false, penaltyApplied := false, shouldDisconnect := false,
      reason := "" }
  let (penaltyRes, c1) := checkPenalty st.cache report.userId now
  if penaltyRes.hasPenalty then
    some ({ base with shouldDisconnect := true, reason := "user has active penalty" },
      { st with cache := c1 })
  else
    match st.db.getPackageByUserID report.userId with
    | none => some ({ base with reason := "no active package" }, { st with cache := c1 })
    | some pkg =>
      let (sessionRes, c2) :=
        checkSession c1 env.window now report.userId report.sessionId pkg.maxConcurrent
      if sessionRes.sessionLimitHit then
        let c3 := applyPenalty c2 report.userId "concurrent_session_limit_exceeded"
          now env.penaltyDuration
        let st3 := emitEvent env { st with cache := c3 } .penaltyApplied
          (some report.userId) (some pkg.id) none none ["concurrent_limit"]
        some ({ base with penaltyApplied := true, shouldDisconnect := true,
                          reason := "concurrent session limit exceeded, penalty applied" },
          st3)
      else
        (checkQuota env.mode st.db c2 report.userId report.upload report.download now
          fuel).bind (fun qc =>
          let quotaRes := qc.1
          let c4 := qc.2
          if !quotaRes.canUse then
            let st4 :=
              if quotaRes.quotaExceeded then
                emitEvent env
                  { st with db := st.db.updateUserStatus report.userId .suspended,
                            cache := c4 }
                  .userSuspended (some report.userId) (some pkg.id) none none
                  ["quota_exceeded"]
              else { st with cache := c4 }
            some ({ base with quotaExceeded := quotaRes.quotaExceeded,
                              shouldDisconnect := true, reason := quotaRes.reason }, st4)
          else
            let geoData : Option GeoData :=
              if env.geoReady && report.clientIP != "" then
                some (env.extractGeo report.clientIP)
              else none
            let c5 := smAddSession env.hashFn c4 report.userId report.sessionId
              report.clientIP geoData now
            let st5 :=
              if sessionRes.isNewSession then
                emitEvent env { st with cache := c5 } .userConnected
                  (some report.userId) (some pkg.id) (some report.nodeId)
                  (some report.serviceId) report.tags
              else { st with cache := c5 }
            (recordUsage st5.db st5.cache report.userId report.upload report.download now
              fuel).map (fun recRes =>
              match recRes with
              | .error _ =>
                ({ base with reason := "failed to record usage" }, st5)
              | .ok (db2, c6) =>
                let db3 := db2.updateNodeUsage report.nodeId report.upload report.download
                let db4 := db3.updateServiceUsage report.serviceId report.upload
                  report.download
                let st6 := emitEvent env { st5 with db := db4, cache := c6 } .usageRecorded
                  (some report.userId) (some pkg.id) (some report.nodeId)
                  (some report.serviceId) report.tags
                let st7 :=
                  match st6.db.getPackage pkg.id with
                  | some pkg2 =>
                    if !pkg2.hasTrafficRemaining then
                      emitEvent env
                        { st6 with db := (st6.db.updatePackageStatus pkg.id
                            .finish).updateUserStatus report.userId .finish }
                        .packageExpired (some report.userId) (some pkg.id) none none []
                    else st6
                  | none => st6
                ({ base with accepted := true, packageId := pkg.id }, st7)))

/-- Event receiver (internal/eventstore, part_002): id, accepted types, channel
capacity, and the channel's buffered contents oldest first. -/
structure EventReceiver where
  id : String
  types : List EventType
  capacity : Nat
  channel : List Event
deriving DecidableEq, Repr

/-- EventReceiver.accepts (part_002:47): empty filter accepts all types. -/
def EventReceiver.accepts (r : EventReceiver) (t : EventType) : Bool :=
  r.types.isEmpty || r.types.contains t

/-- The receiver hub (part_002). -/
structure ReceiverHub where
  receivers : List EventReceiver
deriving DecidableEq, Repr

/-- ReceiverHub.Subscribe (part_002:64): clamp non-positive buffer sizes to 1
and register a receiver with an empty channel. -/
def ReceiverHub.subscribe (h : ReceiverHub) (id : String) (bufferSize : Int)
    (eventTypes : List EventType) : ReceiverHub :=
  let cap := if bufferSize ≤ 0 then 1 else bufferSize.toNat
  { receivers :=
      { id := id, types := eventTypes, capacity := cap, channel := [] } ::
        h.receivers.filter (fun r => r.id != id) }

/-- ReceiverHub.Publish (part_002:97): non-blocking send to every accepting
receiver; a full channel drops the event for that receiver only. -/
def ReceiverHub.publish (h : ReceiverHub) (e : Event) : ReceiverHub :=
  { receivers := h.receivers.map (fun r =>
      if r.accepts e.type && r.channel.length < r.capacity then
        { r with channel := r.channel ++ [e] }
      else r) }

/-- Failure injection for one ActiveDB flush attempt: whether Begin, Prepare,
the i-th row insert, and Commit succeed. -/
structure FlushEnv where
  beginOk : Bool
  prepareOk : Bool
  insertOk : Nat → Bool
  commitOk : Bool

/-- All row inserts of a buffer of the given length succeed. -/
def allInsertsOk (env : FlushEnv) (n : Nat) : Bool :=
  (List.range n).all env.insertOk

/-- ActiveDB state: the in-memory buffer and the committed usage_reports rows. -/
structure ActiveState where
  buffer : List UsageReport
  rows : List UsageReport
deriving DecidableEq, Repr

/-- ActiveDB.flushBuffer (active_db.go:100): empty buffer is a no-op; any
failure at begin, prepare, a row insert, or commit rolls back and leaves the
buffer untouched; the buffer is cleared only after a successful commit. -/
def flushBuffer (env : FlushEnv) (st : ActiveState) : ActiveState × Option String :=
  if st.buffer.isEmpty then (st, none)
  else if !env.beginOk then (st, some "failed to begin transaction")
  else if !env.prepareOk then (st, some "failed to prepare statement")
  else if !allInsertsOk env st.buffer.length then (st, some "failed to insert usage report")
  else if !env.commitOk then (st, some "failed to commit transaction")
  else ({ buffer := [], rows := st.rows ++ st.buffer }, none)

/-- ActiveDB.BufferUsage (active_db.go:78): append, then flush synchronously
when the buffer reaches flushSize. -/
def bufferUsage (env : FlushEnv) (st : ActiveState) (report : UsageReport)
    (flushSize : Nat) : ActiveState × Option String :=
  let st1 := { st with buffer := st.buffer ++ [report] }
  if st1.buffer.length ≥ flushSize then flushBuffer env st1 else (st1, none)

/-! Concrete tables and runs used by individual claims. -/

/-- Managers table whose parent chain A -> B -> A is a two-cycle. -/
def cycManagers : List ManagerRow :=
  [{ id := "A", parentId := some "B" }, { id := "B", parentId := some "A" }]

/-- An event carrying only a type, as published in the hub scenario. -/
def mkEvent (t : EventType) : Event :=
  { type := t, userId := none, packageId := none, nodeId := none, serviceId := none,
    tags := [] }

/-- Hub with one subscriber: buffer 1, filter [USAGE_RECORDED]. -/
def hubC8 : ReceiverHub :=
  ReceiverHub.subscribe { receivers := [] } "sub" 1 [.usageRecorded]

/-- Publish three USAGE_RECORDED events and then one USER_CONNECTED. -/
def hubC8run : ReceiverHub :=
  ((((hubC8.publish (mkEvent .usageRecorded)).publish
      (mkEvent .usageRecorded)).publish
      (mkEvent .usageRecorded)).publish
      (mkEvent .userConnected))

/-- A usage report used as buffered row content. -/
def reportC10 : UsageReport :=
  { id := "r1", userId := "u1", nodeId := "n1", serviceId := "s1", upload := 10,
    download := 20, sessionId := "sess", clientIP := "", tags := [], timestamp := 0 }

/-- Active-store state holding one unflushed report. -/
def stC10 : ActiveState :=
  { buffer := [reportC10], rows := [] }

/-- Flush environment whose Begin fails. -/
def envC10fail : FlushEnv :=
  { beginOk := false, prepareOk := true, insertOk := fun _ => true, commitOk := true }

/-- Flush environment where everything succeeds. -/
def envC10ok : FlushEnv :=
  { beginOk := true, prepareOk := true, insertOk := fun _ => true, commitOk := true }

/-- Cache holding one penalty that expires at instant 5. -/
def cacheC7 : Cache :=
  { Cache.empty with penalties :=
      [{ userId := "u1", reason := "concurrent_session_limit_exceeded", appliedAt := 0,
         expiresAt := 5 }] }

/-- Database with one active user u1 whose active package p1 has total 100 and
zero usage. -/
def dbC3 : Db :=
  { users := [{ id := "u1", managerId := none, username := "tester", status := .active,
                activePackageId := some "p1", lastConnectionAt := none }],
    packages := [{ id := "p1", userId := "u1", totalTraffic := 100, uploadLimit := 0,
                   downloadLimit := 0, maxConcurrent := 2, status := .active,
                   currentUpload := 0, currentDownload := 0, currentTotal := 0,
                   expiresAt := none }],
    nodes := [], services := [], managers := [], managerPackages := [] }

/-- Cache entry for u1 whose accumulated counters claim 200 bytes already used. -/
def cacheC3B : Cache :=
  { Cache.empty with users :=
      [{ userId := "u1", status := .active, activePackageId := some "p1",
         currentUpload := 120, currentDownload := 80, currentTotal := 200,
         maxConcurrent := 2 }] }

/-- CheckAndEnforceQuota run against dbC3 with an empty cache. -/
def runC3A : Option (QuotaResult × Db × Cache) :=
  checkAndEnforceQuota .dflt dbC3 Cache.empty "u1" 0 10

/-- CheckAndEnforceQuota run against the same database with the stale cache. -/
def runC3B : Option (QuotaResult × Db × Cache) :=
  checkAndEnforceQuota .dflt dbC3 cacheC3B "u1" 0 10

/-- Manager package template with all limits zero and zero counters. -/
def zeroMPkg : ManagerPackage :=
  { managerId := "", totalLimit := 0, uploadLimit := 0, downloadLimit := 0,
    maxSessions := 0, maxOnlineUsers := 0, maxActiveUsers := 0, status := .active,
    currentUpload := 0, currentDownload := 0, currentTotal := 0, currentSessions := 0,
    currentOnline := 0, currentActive := 0 }

/-- Empty metadata store. -/
def emptyDb : Db :=
  { users := [], packages := [], nodes := [], services := [], managers := [],
    managerPackages := [] }

/-- Root manager with total_limit 100. -/
def mgrRoot : Manager :=
  { id := "root", name := "root", parentId := none,
    pkg := some { zeroMPkg with totalLimit := 100 } }

/-- Middle manager under root with total_limit 0 (unlimited). -/
def mgrMid : Manager :=
  { id := "mid", name := "mid", parentId := some "root", pkg := some zeroMPkg }

/-- Leaf manager under mid with total_limit 2000. -/
def mgrLeaf : Manager :=
  { id := "leaf", name := "leaf", parentId := some "mid",
    pkg := some { zeroMPkg with totalLimit := 2000 } }

/-- Database after creating root. -/
def dbC4a : Db :=
  { emptyDb with managers := [{ id := "root", parentId := none }],
                 managerPackages := [{ zeroMPkg with managerId := "root", totalLimit := 100 }] }

/-- Database after creating root and mid. -/
def dbC4b : Db :=
  { dbC4a with managers := dbC4a.managers ++ [{ id := "mid", parentId := some "root" }],
               managerPackages := dbC4a.managerPackages ++ [{ zeroMPkg with managerId := "mid" }] }

/-- Database after creating root, mid, and leaf. -/
def dbC4c : Db :=
  { dbC4b with managers := dbC4b.managers ++ [{ id := "leaf", parentId := some "mid" }],
               managerPackages := dbC4b.managerPackages ++
                 [{ zeroMPkg with managerId := "leaf", totalLimit := 2000 }] }

/-- One recorded ApplyManagerUsageDelta call: target manager, the five deltas,
and the fuel bound for the ancestor walk. -/
structure DeltaCall where
  managerId : String
  upload : Int
  download : Int
  sessionDelta : Int
  onlineDelta : Int
  activeDelta : Int
  fuel : Nat
deriving Repr

/-- Apply one completed ApplyManagerUsageDelta call; a call whose ancestor walk
never finishes mutates nothing. -/
def applyCall (db : Db) (call : DeltaCall) : Db :=
  (db.applyManagerUsageDelta call.managerId call.upload call.download call.sessionDelta
    call.onlineDelta call.activeDelta call.fuel).getD db

/-- All six counters of a manager package are non-negative. -/
def mpNonneg (p : ManagerPackage) : Prop :=
  0 ≤ p.currentUpload ∧ 0 ≤ p.currentDownload ∧ 0 ≤ p.currentTotal ∧
    0 ≤ p.currentSessions ∧ 0 ≤ p.currentOnline ∧ 0 ≤ p.currentActive

/-- Every manager package row of the store has non-negative counters. -/
def dbCountersNonneg (db : Db) : Prop :=
  ∀ p ∈ db.managerPackages, mpNonneg p

/-- Two-level manager chain with zeroed counters for the C5 witness. -/
def dbC5 : Db :=
  { emptyDb with
      managers := [{ id := "root", parentId := none },
                   { id := "child", parentId := some "root" }],
      managerPackages := [{ zeroMPkg with managerId := "root", totalLimit := 1000 },
                          { zeroMPkg with managerId := "child", totalLimit := 500 }] }

/-- Delta sequence with out-of-order negative session decrements. -/
def callsC5 : List DeltaCall :=
  [{ managerId := "child", upload := 100, download := 50, sessionDelta := -1,
     onlineDelta := 0, activeDelta := 0, fuel := 10 },
   { managerId := "child", upload := 0, download := 0, sessionDelta := -3,
     onlineDelta := -2, activeDelta := -1, fuel := 10 }]

/-- Pipeline environment of the C1 scenario: default enforcement, 2-second
window, no geo handler, events captured. -/
def envC1 : EngineEnv :=
  { mode := .dflt, window := 2, penaltyDuration := 10, hashFn := fun _ => "hashed",
    geoReady := false, extractGeo := fun _ => { country := "", city := "", isp := "" },
    eventsEnabled := true }

/-- Database of the C1 scenario: active user, active package, total 100, zero
usage (engine_test.go fixture with totalTraffic = 100). -/
def dbC1 : Db :=
  { users := [{ id := "u1", managerId := none, username := "tester", status := .active,
                activePackageId := some "p1", lastConnectionAt := none }],
    packages := [{ id := "p1", userId := "u1", totalTraffic := 100, uploadLimit := 0,
                   downloadLimit := 0, maxConcurrent := 2, status := .active,
                   currentUpload := 0, currentDownload := 0, currentTotal := 0,
                   expiresAt := none }],
    nodes := [{ id := "n1", currentUpload := 0, currentDownload := 0 }],
    services := [{ id := "s1", currentUpload := 0, currentDownload := 0 }],
    managers := [], managerPackages := [] }

/-- Database of the C1 counterexample: the active, non-expired package's
positive total (100) is already fully consumed (current_total = 100). -/
def dbC1exh : Db :=
  { dbC1 with packages :=
      [{ id := "p1", userId := "u1", totalTraffic := 100, uploadLimit := 0,
         downloadLimit := 0, maxConcurrent := 2, status := .active,
         currentUpload := 60, currentDownload := 40, currentTotal := 100,
         expiresAt := none }] }

/-- The C1 scenario report: upload 70, download 40 on a fresh session. -/
def reportC1 : UsageReport :=
  { id := "r1", userId := "u1", nodeId := "n1", serviceId := "s1", upload := 70,
    download := 40, sessionId := "sess1", clientIP := "172.20.10.9", tags := [],
    timestamp := 0 }

/-- The C1 scenario run: one report through the pipeline from a fresh state. -/
def runC1 : Option (UsageReportResult × EngState) :=
  processUsageReport envC1 { db := dbC1, cache := Cache.empty, events := [] } reportC1 0 10

/-- Database of the C3 witness: the active package is already fully consumed
(current_total = total_traffic = 100). -/
def dbC3W : Db :=
  { dbC3 with packages :=
      [{ id := "p1", userId := "u1", totalTraffic := 100, uploadLimit := 0,
         downloadLimit := 0, maxConcurrent := 2, status := .active,
         currentUpload := 60, currentDownload := 40, currentTotal := 100,
         expiresAt := none }] }

/-- Cache of the C3 witness: a cached entry reporting the user as suspended,
which makes CheckQuota answer from the cache without a package. -/
def cacheC3W : Cache :=
  { Cache.empty with users :=
      [{ userId := "u1", status := .suspended, activePackageId := some "p1",
         currentUpload := 0, currentDownload := 0, currentTotal := 0,
         maxConcurrent := 2 }] }

/-! Theorems.  Helper lemmas come first, then one theorem per claim together
with its witness or counterexample. -/

/-- C2: on a managers table whose parent chain cycles (A -> B -> A), the
GetManagerAncestors loop never reaches a break: no amount of fuel makes the
embedded loop return, so the traversal does not terminate and never stops at
the first repeated manager id. -/
theorem getManagerAncestors_cycle_diverges :
    ∀ fuel : Nat, getManagerAncestors cycManagers fuel "A" = none := by
  have key : ∀ fuel : Nat,
      getManagerAncestors cycManagers fuel "A" = none ∧
        getManagerAncestors cycManagers fuel "B" = none := by
    intro fuel
    induction fuel with
    | zero => exact ⟨rfl, rfl⟩
    | succ n ih =>
      have hA : getManagerAncestors cycManagers (n + 1) "A" =
          (getManagerAncestors cycManagers n "B").map (fun rest => "A" :: rest) := rfl
      have hB : getManagerAncestors cycManagers (n + 1) "B" =
          (getManagerAncestors cycManagers n "A").map (fun rest => "B" :: rest) := rfl
      rw [hA, hB, ih.1, ih.2]
      exact ⟨rfl, rfl⟩
  exact fun fuel => (key fuel).1

/-- C8: Publish delivers an event to exactly the subscribers whose type filter
accepts it and whose channel has free space, leaving every other subscriber's
channel untouched; concretely, after Subscribe(buffer=1, filter=[USAGE_RECORDED])
and publishing three USAGE_RECORDED events and one USER_CONNECTED, the
subscriber's channel holds exactly one USAGE_RECORDED event. -/
theorem publish_accepting_with_space :
    (∀ (h : ReceiverHub) (e : Event) (r : EventReceiver), r ∈ h.receivers →
      (r.accepts e.type = true → r.channel.length < r.capacity →
        { r with channel := r.channel ++ [e] } ∈ (h.publish e).receivers) ∧
      (r.accepts e.type = false ∨ r.capacity ≤ r.channel.length →
        r ∈ (h.publish e).receivers)) ∧
    hubC8run.receivers.map (fun r => (r.id, r.channel)) =
      [("sub", [mkEvent .usageRecorded])] := by
  constructor
  · intro h e r hr
    constructor
    · intro hacc hlen
      refine List.mem_map.mpr ⟨r, hr, ?_⟩
      simp [hacc, hlen]
    · intro hdrop
      refine List.mem_map.mpr ⟨r, hr, ?_⟩
      rcases hdrop with hacc | hlen
      · simp [hacc]
      · simp [Nat.not_lt.mpr hlen]
  · decide

/-- C8 witness: the first USAGE_RECORDED publish lands in the subscriber's
empty one-slot channel. -/
theorem publish_accepting_with_space_witness :
    ({ id := "sub", types := [.usageRecorded], capacity := 1,
       channel := [mkEvent .usageRecorded] } : EventReceiver) ∈
      (hubC8.publish (mkEvent .usageRecorded)).receivers := by
  have h := (publish_accepting_with_space).1 hubC8 (mkEvent .usageRecorded)
    { id := "sub", types := [.usageRecorded], capacity := 1, channel := [] }
    (by decide)
  exact h.1 (by decide) (by decide)

/-- C10: a flush attempt that fails at begin, prepare, a row insert, or commit
returns the error and leaves the buffer (and the committed rows) unchanged;
the buffer is cleared exactly on a successful commit, so a later flush
persists every previously buffered report. -/
theorem flushBuffer_error_keeps_buffer :
    (∀ (env : FlushEnv) (st : ActiveState),
      (flushBuffer env st).2.isSome = true → (flushBuffer env st).1 = st) ∧
    (∀ (env : FlushEnv) (st : ActiveState),
      (flushBuffer env st).2 = none → st.buffer ≠ [] →
        (flushBuffer env st).1 = { buffer := [], rows := st.rows ++ st.buffer }) ∧
    (∀ (env1 env2 : FlushEnv) (st : ActiveState),
      (flushBuffer env1 st).2.isSome = true →
      env2.beginOk = true → env2.prepareOk = true →
      allInsertsOk env2 st.buffer.length = true → env2.commitOk = true →
        flushBuffer env2 (flushBuffer env1 st).1 =
          ({ buffer := [], rows := st.rows ++ st.buffer }, none)) := by
  have herr : ∀ (env : FlushEnv) (st : ActiveState),
      (flushBuffer env st).2.isSome = true → (flushBuffer env st).1 = st := by
    intro env st h
    by_cases h0 : st.buffer.isEmpty <;> by_cases h1 : env.beginOk <;>
      by_cases h2 : env.prepareOk <;>
      by_cases h3 : allInsertsOk env st.buffer.length <;>
      by_cases h4 : env.commitOk <;>
      simp [flushBuffer, h0, h1, h2, h3, h4] at h ⊢
  have hnonempty : ∀ (env : FlushEnv) (st : ActiveState),
      (flushBuffer env st).2.isSome = true → st.buffer.isEmpty = false := by
    intro env st h
    by_cases h0 : st.buffer.isEmpty
    · simp [flushBuffer, h0] at h
    · simpa using h0
  refine ⟨herr, ?_, ?_⟩
  · intro env st h hne
    have h0 : st.buffer.isEmpty = false := by
      simpa using hne
    by_cases h1 : env.beginOk <;> by_cases h2 : env.prepareOk <;>
      by_cases h3 : allInsertsOk env st.buffer.length <;>
      by_cases h4 : env.commitOk <;>
      simp [flushBuffer, h0, h1, h2, h3, h4] at h ⊢
  · intro env1 env2 st h hb hp hi hc
    have h0 : st.buffer.isEmpty = false := hnonempty env1 st h
    rw [herr env1 st h]
    simp [flushBuffer, h0, hb, hp, hi, hc]

/-- C10 witness: a flush whose transaction fails to begin keeps the single
buffered report, and the retry flush commits exactly that report. -/
theorem flushBuffer_error_keeps_buffer_witness :
    flushBuffer envC10ok (flushBuffer envC10fail stC10).1 =
      ({ buffer := [], rows := stC10.rows ++ stC10.buffer }, none) :=
  (flushBuffer_error_keeps_buffer).2.2 envC10fail envC10ok stC10
    (by decide) rfl rfl (by decide) rfl

/-- C7 counterexample: at the instant now = expires_at (entry expiring at 5,
read at 5) CheckPenalty still reports the penalty although expires_at > now
fails, so "reports a penalty exactly when expires_at > now" is false. -/
theorem checkPenalty_boundary_counterexample :
    (checkPenalty cacheC7 "u1" 5).1.hasPenalty = true ∧
      cacheC7.penalties.map PenaltyEntry.expiresAt = [5] ∧ ¬ ((5 : Int) > 5) := by
  decide

/-- Folding disconnect enqueues over a session list never touches the penalty
table. -/
theorem foldl_queueDisconnect_penalties (uid reason : String) :
    ∀ (l : List SessionEntry) (acc : Cache),
      (l.foldl (fun a s => a.queueDisconnect uid s.sessionId reason "") acc).penalties =
        acc.penalties := by
  intro l
  induction l with
  | nil => intro acc; rfl
  | cons s rest ih =>
    intro acc
    exact ih (acc.queueDisconnect uid s.sessionId reason "")

/-- Folding disconnect enqueues appends one command per session in order. -/
theorem foldl_queueDisconnect_queue (uid reason : String) :
    ∀ (l : List SessionEntry) (acc : Cache),
      (l.foldl (fun a s => a.queueDisconnect uid s.sessionId reason "") acc).disconnectQueue =
        acc.disconnectQueue ++ l.map (fun s =>
          ({ userId := uid, sessionId := s.sessionId, reason := reason,
             nodeId := "" } : DisconnectCommand)) := by
  intro l
  induction l with
  | nil => intro acc; simp
  | cons s rest ih =>
    intro acc
    rw [List.foldl_cons, ih]
    simp [Cache.queueDisconnect]

/-- C7 (amended): CheckPenalty reports a penalty exactly when the stored entry
has expires_at ≥ now (the code keeps the entry at the instant now = expires_at);
a read observing expires_at < now deletes the entry and reports none; and
ApplyPenalty stores an entry with expires_at = now + P and enqueues one
disconnect carrying the penalty reason per current session of the user. -/
theorem applyPenalty_checkPenalty_behaviour :
    (∀ (c : Cache) (uid : String) (now : Int) (e : PenaltyEntry),
      c.penalties.find? (fun p => p.userId == uid) = some e → now ≤ e.expiresAt →
        (checkPenalty c uid now).1.hasPenalty = true ∧
        (checkPenalty c uid now).1.reason = e.reason ∧
        (checkPenalty c uid now).2 = c) ∧
    (∀ (c : Cache) (uid : String) (now : Int) (e : PenaltyEntry),
      c.penalties.find? (fun p => p.userId == uid) = some e → e.expiresAt < now →
        (checkPenalty c uid now).1.hasPenalty = false ∧
        (checkPenalty c uid now).2.penalties.find? (fun p => p.userId == uid) = none) ∧
    (∀ (c : Cache) (uid : String) (now : Int),
      c.penalties.find? (fun p => p.userId == uid) = none →
        (checkPenalty c uid now).1.hasPenalty = false) ∧
    (∀ (c : Cache) (uid reason : String) (now dur : Int),
      (applyPenalty c uid reason now dur).penalties.find? (fun p => p.userId == uid) =
        some { userId := uid, reason := reason, appliedAt := now, expiresAt := now + dur } ∧
      (applyPenalty c uid reason now dur).disconnectQueue =
        c.disconnectQueue ++ (c.getSessions uid).map (fun s =>
          ({ userId := uid, sessionId := s.sessionId, reason := reason,
             nodeId := "" } : DisconnectCommand))) := by
  refine ⟨?_, ?_, ?_, ?_⟩
  · intro c uid now e hfind hle
    have hnot : ¬ (now > e.expiresAt) := not_lt.mpr hle
    simp [checkPenalty, Cache.getPenalty, hfind, hnot]
  · intro c uid now e hfind hlt
    have hgt : now > e.expiresAt := hlt
    refine ⟨?_, ?_⟩
    · simp [checkPenalty, Cache.getPenalty, hfind, hgt]
    · have hfil : (c.penalties.filter (fun p => p.userId != uid)).find?
          (fun p => p.userId == uid) = none := by
        rw [List.find?_eq_none]
        intro p hp
        have hm := List.mem_filter.mp hp
        simpa using hm.2
      simp [checkPenalty, Cache.getPenalty, hfind, hgt, hfil]
  · intro c uid now hfind
    simp [checkPenalty, Cache.getPenalty, hfind]
  · intro c uid reason now dur
    refine ⟨?_, ?_⟩
    · rw [applyPenalty, foldl_queueDisconnect_penalties]
      simp [Cache.setPenalty]
    · rw [applyPenalty, foldl_queueDisconnect_queue]
      rfl

/-- C7 witness: reading the stored penalty (expiring at 5) at instant 6
reports none and deletes the entry. -/
theorem applyPenalty_checkPenalty_behaviour_witness :
    (checkPenalty cacheC7 "u1" 6).1.hasPenalty = false ∧
      (checkPenalty cacheC7 "u1" 6).2.penalties.find? (fun p => p.userId == "u1") = none :=
  (applyPenalty_checkPenalty_behaviour).2.1 cacheC7 "u1" 6
    { userId := "u1", reason := "concurrent_session_limit_exceeded", appliedAt := 0,
      expiresAt := 5 } (by decide) (by decide)

/-- Replacing a user's session table stores exactly that table. -/
theorem getSessions_setSessions (c : Cache) (uid : String) (l : List SessionEntry) :
    (c.setSessions uid l).getSessions uid = l := by
  simp [Cache.setSessions, Cache.getSessions]

/-- After touching an existing session, the first entry with that id carries
the new last-seen instant. -/
theorem find?_updateSessionLastSeen (sid : String) (now : Int) :
    ∀ l : List SessionEntry, hasSession l sid = true →
      ((updateSessionLastSeen l sid now).find? (fun s => s.sessionId == sid)).map
        SessionEntry.lastSeenAt = some now := by
  intro l
  induction l with
  | nil => intro h; simp [hasSession] at h
  | cons s rest ih =>
    intro h
    by_cases hs : s.sessionId == sid
    · simp [updateSessionLastSeen, List.find?, hs]
    · have hrest : hasSession rest sid = true := by
        have := h
        simp [hasSession, hs] at this ⊢
        simpa [hasSession] using this
      simpa [updateSessionLastSeen, List.find?, hs] using ih hrest

/-- C6: CheckSession allows an existing session without testing the limit and
refreshes its last_seen_at; for a new session id it rejects with
sessionLimitHit exactly when maxConcurrent > 0 and the in-window count has
reached maxConcurrent, and otherwise allows it as new. -/
theorem checkSession_behaviour :
    (∀ (c : Cache) (window now : Int) (uid sid : String) (maxConcurrent : Int),
      hasSession (c.getSessions uid) sid = true →
        (checkSession c window now uid sid maxConcurrent).1.allowed = true ∧
        (checkSession c window now uid sid maxConcurrent).1.isNewSession = false ∧
        (checkSession c window now uid sid maxConcurrent).1.sessionLimitHit = false ∧
        (((checkSession c window now uid sid maxConcurrent).2.getSessions uid).find?
            (fun s => s.sessionId == sid)).map SessionEntry.lastSeenAt = some now) ∧
    (∀ (c : Cache) (window now : Int) (uid sid : String) (maxConcurrent : Int),
      hasSession (c.getSessions uid) sid = false → maxConcurrent > 0 →
      maxConcurrent ≤ (activeSessionCount (c.getSessions uid) now window : Int) →
        (checkSession c window now uid sid maxConcurrent).1.allowed = false ∧
        (checkSession c window now uid sid maxConcurrent).1.sessionLimitHit = true ∧
        (checkSession c window now uid sid maxConcurrent).2 = c) ∧
    (∀ (c : Cache) (window now : Int) (uid sid : String) (maxConcurrent : Int),
      hasSession (c.getSessions uid) sid = false →
      ((activeSessionCount (c.getSessions uid) now window : Int) < maxConcurrent ∨
        maxConcurrent ≤ 0) →
        (checkSession c window now uid sid maxConcurrent).1.allowed = true ∧
        (checkSession c window now uid sid maxConcurrent).1.isNewSession = true ∧
        (checkSession c window now uid sid maxConcurrent).1.sessionLimitHit = false) := by
  refine ⟨?_, ?_, ?_⟩
  · intro c window now uid sid maxConcurrent h
    refine ⟨?_, ?_, ?_, ?_⟩ <;>
      simp [checkSession, h, getSessions_setSessions, find?_updateSessionLastSeen sid now _ h]
  · intro c window now uid sid maxConcurrent h hpos hge
    refine ⟨?_, ?_, ?_⟩ <;> simp [checkSession, h, hpos, hge]
  · intro c window now uid sid maxConcurrent h hlt
    have hcond : (decide (maxConcurrent > 0) &&
        decide ((activeSessionCount (c.getSessions uid) now window : Int) ≥ maxConcurrent))
          = false := by
      rcases hlt with hlt | hle
      · simp [not_le.mpr hlt]
      · simp [not_lt.mpr hle]
    refine ⟨?_, ?_, ?_⟩ <;> simp [checkSession, h, hcond]

/-- C6 witness: one in-window session and cap 1 reject a second session id
with the limit flag. -/
theorem checkSession_behaviour_witness :
    (checkSession (Cache.empty.setSessions "u"
        [{ sessionId := "s1", ipHash := "", country := "", city := "", isp := "",
           startedAt := 0, lastSeenAt := 0 }]) 5 0 "u" "s2" 1).1.allowed = false ∧
    (checkSession (Cache.empty.setSessions "u"
        [{ sessionId := "s1", ipHash := "", country := "", city := "", isp := "",
           startedAt := 0, lastSeenAt := 0 }]) 5 0 "u" "s2" 1).1.sessionLimitHit = true ∧
    (checkSession (Cache.empty.setSessions "u"
        [{ sessionId := "s1", ipHash := "", country := "", city := "", isp := "",
           startedAt := 0, lastSeenAt := 0 }]) 5 0 "u" "s2" 1).2 =
      Cache.empty.setSessions "u"
        [{ sessionId := "s1", ipHash := "", country := "", city := "", isp := "",
           startedAt := 0, lastSeenAt := 0 }] :=
  (checkSession_behaviour).2.1 (Cache.empty.setSessions "u"
      [{ sessionId := "s1", ipHash := "", country := "", city := "", isp := "",
         startedAt := 0, lastSeenAt := 0 }]) 5 0 "u" "s2" 1
    (by decide) (by decide) (by decide)

/-- SetUser stores the fresh entry verbatim. -/
theorem getUser_setUser (c : Cache) (uid : String) (st : UserStatus)
    (pid : Option String) (mc : Int) :
    (c.setUser uid st pid mc).getUser uid =
      some { userId := uid, status := st, activePackageId := pid, currentUpload := 0,
             currentDownload := 0, currentTotal := 0, maxConcurrent := mc } := by
  simp [Cache.setUser, Cache.getUser]

/-- UpdateUserUsage acts on the looked-up entry pointwise. -/
theorem getUser_updateUserUsage (c : Cache) (uid : String) (u d : Int) :
    (c.updateUserUsage uid u d).getUser uid =
      (c.getUser uid).map (fun e =>
        { e with currentUpload := e.currentUpload + u,
                 currentDownload := e.currentDownload + d,
                 currentTotal := e.currentTotal + (u + d) }) := by
  show (c.users.map _).find? _ = (c.users.find? _).map _
  induction c.users with
  | nil => rfl
  | cons a rest ih =>
    by_cases ha : (a.userId == uid) = true
    · simp only [List.map_cons, List.find?_cons, ha, eq_self_iff_true, if_true,
        Option.map_some']
    · have ha' : (a.userId == uid) = false := by
        cases h : (a.userId == uid) <;> simp_all
      simp only [List.map_cons, List.find?_cons, ha', Bool.false_eq_true, if_false]
      exact ih

/-- A run of UpdateUserUsage calls adds exactly the summed deltas to the entry
present before the run. -/
theorem foldl_updateUserUsage (uid : String) :
    ∀ (ds : List (Int × Int)) (c : Cache) (e : UserCacheEntry),
      c.getUser uid = some e →
        (ds.foldl (fun cc dd => cc.updateUserUsage uid dd.1 dd.2) c).getUser uid =
          some { e with
            currentUpload := e.currentUpload + (ds.map Prod.fst).sum,
            currentDownload := e.currentDownload + (ds.map Prod.snd).sum,
            currentTotal := e.currentTotal +
              ((ds.map Prod.fst).sum + (ds.map Prod.snd).sum) } := by
  intro ds
  induction ds with
  | nil =>
    intro c e h
    rw [List.foldl_nil, h]
    cases e
    simp
  | cons d rest ih =>
    intro c e h
    rw [List.foldl_cons]
    have h1 : (c.updateUserUsage uid d.1 d.2).getUser uid =
        some { e with currentUpload := e.currentUpload + d.1,
                      currentDownload := e.currentDownload + d.2,
                      currentTotal := e.currentTotal + (d.1 + d.2) } := by
      rw [getUser_updateUserUsage, h]
      rfl
    rw [ih _ _ h1]
    cases e
    simp only [Option.some.injEq, UserCacheEntry.mk.injEq, List.map_cons, List.sum_cons,
      eq_self_iff_true, true_and, and_true]
    omega

/-- C9: SetUser replaces the entry with one whose counters are zero, so every
cache (re)population (RefreshCache included) discards accumulated cached
usage; counters then hold exactly the deltas recorded since that SetUser; and
the cached branch of CheckQuota compares those cached counters (not the
package's database counters) against the limit. -/
theorem setUser_resets_cached_counters :
    (∀ (c : Cache) (uid : String) (st : UserStatus) (pid : Option String) (mc : Int),
      (c.setUser uid st pid mc).getUser uid =
        some { userId := uid, status := st, activePackageId := pid, currentUpload := 0,
               currentDownload := 0, currentTotal := 0, maxConcurrent := mc }) ∧
    (∀ (c : Cache) (uid : String) (st : UserStatus) (pid : Option String) (mc : Int)
        (ds : List (Int × Int)),
      ((ds.foldl (fun cc dd => cc.updateUserUsage uid dd.1 dd.2)
          (c.setUser uid st pid mc)).getUser uid).map
            (fun e => (e.currentUpload, e.currentDownload, e.currentTotal)) =
        some ((ds.map Prod.fst).sum, (ds.map Prod.snd).sum,
          (ds.map Prod.fst).sum + (ds.map Prod.snd).sum)) ∧
    (∀ (db : Db) (c : Cache) (uid : String) (u : User),
      db.getUser uid = some u →
        ((refreshCache db c uid).getUser uid).map
            (fun e => (e.currentUpload, e.currentDownload, e.currentTotal)) =
          some (0, 0, 0)) ∧
    (∀ (mode : EnforcementMode) (db : Db) (c : Cache) (uid pid : String)
        (cu : UserCacheEntry) (pkg : Package) (up down now : Int) (fuel : Nat),
      c.getUser uid = some cu → cu.status = .active → cu.activePackageId = some pid →
      db.getPackage pid = some pkg → pkg.status = .active → pkg.isExpired now = false →
      pkg.totalTraffic > 0 → pkg.totalTraffic < cu.currentTotal + up + down →
        (checkQuota mode db c uid up down now fuel).map
            (fun p => (p.1.canUse, p.1.quotaExceeded, p.1.reason)) =
          some (false, true, "total traffic quota exceeded")) := by
  refine ⟨getUser_setUser, ?_, ?_, ?_⟩
  · intro c uid st pid mc ds
    rw [foldl_updateUserUsage uid ds _ _ (getUser_setUser c uid st pid mc)]
    simp
  · intro db c uid u hu
    unfold refreshCache
    rw [hu]
    rw [getUser_setUser]
    rfl
  · intro mode db c uid pid cu pkg up down now fuel hcu hst hpid hpkg hpst hexp hpos hover
    have hact : (cu.status != UserStatus.active) = false := by
      simp [hst]
    have hover2 : cu.currentTotal + up + down > pkg.totalTraffic := hover
    simp [checkQuota, hcu, checkQuotaCached, hact, hpid, hpkg, Package.isActive, hpst,
      hexp, hpos, hover2]

/-- C9 witness: refreshing the cache for the stored user u1 leaves an entry
whose counters are all zero, discarding the previously cached usage. -/
theorem setUser_resets_cached_counters_witness :
    ((refreshCache dbC3 cacheC3B "u1").getUser "u1").map
        (fun e => (e.currentUpload, e.currentDownload, e.currentTotal)) =
      some (0, 0, 0) :=
  (setUser_resets_cached_counters).2.2.1 dbC3 cacheC3B "u1"
    { id := "u1", managerId := none, username := "tester", status := .active,
      activePackageId := some "p1", lastConnectionAt := none } (by decide)

/-- Clamped updates are non-negative in every dimension. -/
theorem mpNonneg_clampApply (u d sd od ad : Int) (p : ManagerPackage) :
    mpNonneg (clampApply u d sd od ad p) := by
  refine ⟨?_, ?_, ?_, ?_, ?_, ?_⟩ <;> exact le_max_left 0 _

/-- The transaction body preserves non-negativity of all rows. -/
theorem applyToChain_nonneg (u d sd od ad : Int) :
    ∀ (chain : List String) (rows : List ManagerPackage),
      (∀ p ∈ rows, mpNonneg p) →
        ∀ p ∈ applyToChain u d sd od ad rows chain, mpNonneg p := by
  intro chain
  induction chain with
  | nil => intro rows h; exact h
  | cons id rest ih =>
    intro rows h
    rw [applyToChain, List.foldl_cons]
    refine ih _ ?_
    intro p hp
    obtain ⟨q, hq, hqe⟩ := List.mem_map.mp hp
    by_cases hid : q.managerId == id
    · rw [← hqe, if_pos hid]
      exact mpNonneg_clampApply u d sd od ad q
    · rw [← hqe, if_neg hid]
      exact h q hq

/-- One completed ApplyManagerUsageDelta call preserves the invariant. -/
theorem applyCall_nonneg (db : Db) (call : DeltaCall) :
    dbCountersNonneg db → dbCountersNonneg (applyCall db call) := by
  intro h
  unfold applyCall Db.applyManagerUsageDelta
  by_cases hid : call.managerId == ""
  · simpa [hid] using h
  · rw [if_neg hid]
    cases hanc : getManagerAncestors db.managers call.fuel call.managerId with
    | none => simpa using h
    | some chain =>
      intro p hp
      exact applyToChain_nonneg _ _ _ _ _ chain db.managerPackages h p hp

/-- C5: starting from manager-package rows with non-negative counters, any
sequence of completed ApplyManagerUsageDelta calls with arbitrary (possibly
negative) deltas leaves every counter of every manager package ≥ 0, because
each ancestor row is updated with MAX(0, current + delta) clamping. -/
theorem applyManagerUsageDelta_counters_nonneg :
    ∀ (db : Db), dbCountersNonneg db →
      ∀ (calls : List DeltaCall), dbCountersNonneg (calls.foldl applyCall db) := by
  intro db h calls
  induction calls generalizing db with
  | nil => exact h
  | cons call rest ih =>
    rw [List.foldl_cons]
    exact ih (applyCall db call) (applyCall_nonneg db call h)

/-- C5 witness: two calls with negative session deltas on a two-level chain
keep all counters non-negative. -/
theorem applyManagerUsageDelta_counters_nonneg_witness :
    dbCountersNonneg (callsC5.foldl applyCall dbC5) :=
  applyManagerUsageDelta_counters_nonneg dbC5
    (by simp only [dbCountersNonneg, mpNonneg]; decide) callsC5

/-- A successful validation bounds every positive parent limit. -/
theorem validate_none_bounds (c p : ManagerPackage)
    (h : validateChildPackageAgainstParent c p = none) :
    (p.totalLimit > 0 → c.totalLimit ≤ p.totalLimit) ∧
    (p.uploadLimit > 0 → c.uploadLimit ≤ p.uploadLimit) ∧
    (p.downloadLimit > 0 → c.downloadLimit ≤ p.downloadLimit) ∧
    (p.maxSessions > 0 → c.maxSessions ≤ p.maxSessions) ∧
    (p.maxOnlineUsers > 0 → c.maxOnlineUsers ≤ p.maxOnlineUsers) ∧
    (p.maxActiveUsers > 0 → c.maxActiveUsers ≤ p.maxActiveUsers) := by
  unfold validateChildPackageAgainstParent at h
  by_cases h1 : (decide (p.totalLimit > 0) && decide (c.totalLimit > p.totalLimit)) = true
  · rw [if_pos h1] at h
    simp at h
  rw [if_neg h1] at h
  by_cases h2 : (decide (p.uploadLimit > 0) && decide (c.uploadLimit > p.uploadLimit)) = true
  · rw [if_pos h2] at h
    simp at h
  rw [if_neg h2] at h
  by_cases h3 :
      (decide (p.downloadLimit > 0) && decide (c.downloadLimit > p.downloadLimit)) = true
  · rw [if_pos h3] at h
    simp at h
  rw [if_neg h3] at h
  by_cases h4 : (decide (p.maxSessions > 0) && decide (c.maxSessions > p.maxSessions)) = true
  · rw [if_pos h4] at h
    simp at h
  rw [if_neg h4] at h
  by_cases h5 :
      (decide (p.maxOnlineUsers > 0) && decide (c.maxOnlineUsers > p.maxOnlineUsers)) = true
  · rw [if_pos h5] at h
    simp at h
  rw [if_neg h5] at h
  by_cases h6 :
      (decide (p.maxActiveUsers > 0) && decide (c.maxActiveUsers > p.maxActiveUsers)) = true
  · rw [if_pos h6] at h
    simp at h
  simp only [Bool.and_eq_true, decide_eq_true_eq, not_and, not_lt] at h1 h2 h3 h4 h5 h6
  exact ⟨h1, h2, h3, h4, h5, h6⟩

/-- C4 counterexample: three creations all succeed — Root(total=100),
Mid(total=0, parent Root), Leaf(total=2000, parent Mid) — yet Root is an
ancestor of Leaf and Leaf's positive total limit (2000) exceeds Root's
positive total limit (100): the child ≤ every-ancestor invariant fails. -/
theorem createManager_grandparent_counterexample :
    emptyDb.createManager mgrRoot = .ok dbC4a ∧
    dbC4a.createManager mgrMid = .ok dbC4b ∧
    dbC4b.createManager mgrLeaf = .ok dbC4c ∧
    getManagerAncestors dbC4c.managers 10 "leaf" = some ["leaf", "mid", "root"] ∧
    (dbC4c.getManagerPackage "root").map ManagerPackage.totalLimit = some 100 ∧
    (dbC4c.getManagerPackage "leaf").map ManagerPackage.totalLimit = some 2000 ∧
    (0 : Int) < 100 ∧ (100 : Int) < 2000 := by
  refine ⟨rfl, rfl, rfl, by decide, by decide, by decide, by decide, by decide⟩

/-- C4 (amended): a successful CreateManager with a non-empty parent reference
guarantees child ≤ parent for each of the six limits whose parent value is
positive — against the direct parent only; the bound does not propagate past
an ancestor whose same-named limit is zero. -/
theorem createManager_child_le_parent :
    ∀ (db : Db) (m : Manager) (db' : Db) (p : String) (cpkg ppkg : ManagerPackage),
      db.createManager m = .ok db' → m.pkg = some cpkg → m.parentId = some p →
      p ≠ "" → db.getManagerPackage p = some ppkg →
        (ppkg.totalLimit > 0 → cpkg.totalLimit ≤ ppkg.totalLimit) ∧
        (ppkg.uploadLimit > 0 → cpkg.uploadLimit ≤ ppkg.uploadLimit) ∧
        (ppkg.downloadLimit > 0 → cpkg.downloadLimit ≤ ppkg.downloadLimit) ∧
        (ppkg.maxSessions > 0 → cpkg.maxSessions ≤ ppkg.maxSessions) ∧
        (ppkg.maxOnlineUsers > 0 → cpkg.maxOnlineUsers ≤ ppkg.maxOnlineUsers) ∧
        (ppkg.maxActiveUsers > 0 → cpkg.maxActiveUsers ≤ ppkg.maxActiveUsers) := by
  intro db m db' p cpkg ppkg h hpkg hparent hpne hpp
  have hpne' : (p == "") = false := by
    simpa using hpne
  unfold Db.createManager at h
  rw [hpkg, hparent] at h
  simp only [hpne', Bool.false_eq_true, if_false, hpp] at h
  cases hv : validateChildPackageAgainstParent cpkg ppkg with
  | none => exact validate_none_bounds cpkg ppkg hv
  | some msg =>
    rw [hv] at h
    exact absurd h (by simp)

/-- C4 witness: creating a child with total 50 under root (total 100)
succeeds, and the theorem yields the bound 50 ≤ 100. -/
theorem createManager_child_le_parent_witness :
    ({ zeroMPkg with managerId := "", totalLimit := 50 } : ManagerPackage).totalLimit ≤
      (100 : Int) :=
  (createManager_child_le_parent dbC4a
      { id := "c2", name := "c2", parentId := some "root",
        pkg := some { zeroMPkg with totalLimit := 50 } }
      { dbC4a with
          managers := dbC4a.managers ++ [{ id := "c2", parentId := some "root" }],
          managerPackages := dbC4a.managerPackages ++
            [{ zeroMPkg with managerId := "c2", totalLimit := 50 }] }
      "root" { zeroMPkg with totalLimit := 50 }
      { zeroMPkg with managerId := "root", totalLimit := 100 }
      rfl rfl rfl (by decide) (by decide)).1 (by decide)

/-- C3 counterexample: with the same database (package total 100, zero usage),
CheckAndEnforceQuota leaves the user active when the cache is empty but
suspends the user and queues a quota_exceeded disconnect when a stale cache
entry carries inflated counters — the operation does consult the in-memory
user cache, and it suspends although no database counter has reached a limit. -/
theorem checkAndEnforceQuota_consults_cache_counterexample :
    (runC3A.map (fun t => ((t.2.1.getUser "u1").map User.status, t.2.2.disconnectQueue)) =
      some (some .active, [])) ∧
    (runC3B.map (fun t => ((t.2.1.getUser "u1").map User.status, t.2.2.disconnectQueue)) =
      some (some .suspended,
        [{ userId := "u1", sessionId := "", reason := "quota_exceeded", nodeId := "" }])) ∧
    (dbC3.getPackage "p1").map
        (fun q => (q.currentUpload, q.currentDownload, q.currentTotal, q.totalTraffic)) =
      some (0, 0, 0, 100) := by
  refine ⟨by decide, by decide, by decide⟩

/-- C3 (amended): CheckAndEnforceQuota consults the user cache through
CheckQuota, so its outcome can depend on cached counters; the limit re-check,
however, runs on package counters read from the database (CheckQuota's
package, else the user's active package fetched fresh), and whenever any
positive limit is reached by those counters the user is suspended and a
disconnect with reason quota_exceeded is enqueued. -/
theorem checkAndEnforceQuota_db_limit_enforces :
    ∀ (mode : EnforcementMode) (db : Db) (c : Cache) (uid : String) (now : Int)
      (fuel : Nat) (r : QuotaResult) (c1 : Cache) (pkg : Package),
      checkQuota mode db c uid 0 0 now fuel = some (r, c1) →
      (r.pkg = some pkg ∨ (r.pkg = none ∧ db.getPackageByUserID uid = some pkg)) →
      ((pkg.totalTraffic > 0 ∧ pkg.totalTraffic ≤ pkg.currentTotal) ∨
       (pkg.uploadLimit > 0 ∧ pkg.uploadLimit ≤ pkg.currentUpload) ∨
       (pkg.downloadLimit > 0 ∧ pkg.downloadLimit ≤ pkg.currentDownload)) →
        checkAndEnforceQuota mode db c uid now fuel =
          some ({ r with canUse := false, quotaExceeded := true,
                         reason := "traffic quota exceeded" },
            db.updateUserStatus uid .suspended,
            c1.queueDisconnect uid "" "quota_exceeded" "") := by
  intro mode db c uid now fuel r c1 pkg hq hsel hlim
  have hcond : ((decide (pkg.totalTraffic > 0) && decide (pkg.currentTotal ≥ pkg.totalTraffic))
      || (decide (pkg.uploadLimit > 0) && decide (pkg.currentUpload ≥ pkg.uploadLimit))
      || (decide (pkg.downloadLimit > 0) &&
            decide (pkg.currentDownload ≥ pkg.downloadLimit))) = true := by
    rcases hlim with ⟨h1, h2⟩ | ⟨h1, h2⟩ | ⟨h1, h2⟩ <;> simp [h1, h2]
  unfold checkAndEnforceQuota
  rw [hq]
  rcases hsel with hp | ⟨hp, hdb⟩
  · simp only [Option.map_some', hp, hcond, if_true]
    rfl
  · simp only [Option.map_some', hp, hdb, hcond, if_true]
    rfl

/-- C3 witness: with the fully-consumed package in the database and a cached
suspended-status entry, CheckAndEnforceQuota suspends the user and enqueues
the quota_exceeded disconnect. -/
theorem checkAndEnforceQuota_db_limit_enforces_witness :
    checkAndEnforceQuota .dflt dbC3W cacheC3W "u1" 0 10 =
      some ({ userId := "u1", canUse := false, reason := "traffic quota exceeded",
              quotaExceeded := true, pkg := none, cached := true },
        dbC3W.updateUserStatus "u1" .suspended,
        cacheC3W.queueDisconnect "u1" "" "quota_exceeded" "") :=
  checkAndEnforceQuota_db_limit_enforces .dflt dbC3W cacheC3W "u1" 0 10
    { userId := "u1", canUse := false, reason := "user status is suspended",
      quotaExceeded := false, pkg := none, cached := true }
    cacheC3W
    { id := "p1", userId := "u1", totalLimit := 100, totalTraffic := 100,
      uploadLimit := 0, downloadLimit := 0, maxConcurrent := 2, status := .active,
      currentUpload := 60, currentDownload := 40, currentTotal := 100, expiresAt := none }
    (by decide) (by decide) (by decide)

/-- A positive limit exceeded by current + delta makes checkTrafficLimits false. -/
theorem checkTrafficLimits_exceeded (pkg : Package) (up down : Int)
    (h : (pkg.totalTraffic > 0 ∧ pkg.totalTraffic < pkg.currentTotal + up + down) ∨
         (pkg.uploadLimit > 0 ∧ pkg.uploadLimit < pkg.currentUpload + up) ∨
         (pkg.downloadLimit > 0 ∧ pkg.downloadLimit < pkg.currentDownload + down)) :
    checkTrafficLimits pkg up down = false := by
  unfold checkTrafficLimits
  by_cases c1 : (decide (pkg.totalTraffic > 0) &&
      decide (pkg.currentTotal + up + down > pkg.totalTraffic)) = true
  · rw [if_pos c1]
  rw [if_neg c1]
  by_cases c2 : (decide (pkg.uploadLimit > 0) &&
      decide (pkg.currentUpload + up > pkg.uploadLimit)) = true
  · rw [if_pos c2]
  rw [if_neg c2]
  by_cases c3 : (decide (pkg.downloadLimit > 0) &&
      decide (pkg.currentDownload + down > pkg.downloadLimit)) = true
  · rw [if_pos c3]
  simp only [Bool.and_eq_true, decide_eq_true_eq, not_and, not_lt] at c1 c2 c3
  rcases h with ⟨h1, h2⟩ | ⟨h1, h2⟩ | ⟨h1, h2⟩
  · exact absurd (c1 h1) (not_le.mpr h2)
  · exact absurd (c2 h1) (not_le.mpr h2)
  · exact absurd (c3 h1) (not_le.mpr h2)

/-- C1 counterexample: with an active, non-expired package whose positive
total limit (100) is already fully consumed, report deltas (1, 0) make
current_total + delta exceed the limit, yet CheckQuota's database branch
rejects with quotaExceeded = false (the CanUse gate fires first, reason
"package cannot be used"), not quotaExceeded = true as the claim states. -/
theorem checkQuota_exhausted_counterexample :
    (checkQuota .dflt dbC1exh Cache.empty "u1" 1 0 0 10).map
        (fun p => (p.1.canUse, p.1.quotaExceeded, p.1.reason)) =
      some (false, false, "package cannot be used: status=active, expired=false") ∧
    (dbC1exh.getPackage "p1").map (fun q => (q.totalTraffic, q.currentTotal)) =
      some (100, 100) ∧
    (0 : Int) < 100 ∧ (100 : Int) < 100 + 1 + 0 := by
  refine ⟨by decide, by decide, by decide, by decide⟩

/-- C1 (amended): CheckQuota rejects with canUse = false and quotaExceeded =
true whenever a positive package limit is exceeded by the corresponding
current counter plus the report's delta — on the database branch against the
package counters, provided the package is still usable at check time (a
package whose positive total is already consumed is rejected earlier by the
CanUse gate with quotaExceeded = false), and on the cached branch against the
cached counters unconditionally — and the total=100 / report(70, 40) scenario
is rejected by the pipeline, which flips the user to suspended and emits
exactly one USER_SUSPENDED event. -/
theorem checkQuota_rejects_over_limit :
    (∀ (mode : EnforcementMode) (db : Db) (c : Cache) (uid : String) (u : User)
        (pkg : Package) (up down now : Int) (fuel : Nat),
      c.getUser uid = none → db.getUser uid = some u → u.canConnect = true →
      db.getPackageByUserID uid = some pkg → pkg.canUse now = true →
      ((pkg.totalTraffic > 0 ∧ pkg.totalTraffic < pkg.currentTotal + up + down) ∨
       (pkg.uploadLimit > 0 ∧ pkg.uploadLimit < pkg.currentUpload + up) ∨
       (pkg.downloadLimit > 0 ∧ pkg.downloadLimit < pkg.currentDownload + down)) →
        (checkQuota mode db c uid up down now fuel).map
            (fun p => (p.1.canUse, p.1.quotaExceeded, p.1.reason)) =
          some (false, true, "traffic quota exceeded")) ∧
    (∀ (mode : EnforcementMode) (db : Db) (c : Cache) (uid pid : String)
        (cu : UserCacheEntry) (pkg : Package) (up down now : Int) (fuel : Nat),
      c.getUser uid = some cu → cu.status = .active → cu.activePackageId = some pid →
      db.getPackage pid = some pkg → pkg.status = .active → pkg.isExpired now = false →
      ((pkg.totalTraffic > 0 ∧ pkg.totalTraffic < cu.currentTotal + up + down) ∨
       (pkg.uploadLimit > 0 ∧ pkg.uploadLimit < cu.currentUpload + up) ∨
       (pkg.downloadLimit > 0 ∧ pkg.downloadLimit < cu.currentDownload + down)) →
        (checkQuota mode db c uid up down now fuel).map
            (fun p => (p.1.canUse, p.1.quotaExceeded)) = some (false, true)) ∧
    ((runC1.map (fun t =>
        (t.1.accepted, t.1.quotaExceeded, t.1.shouldDisconnect, t.1.reason)) =
      some (false, true, true, "traffic quota exceeded")) ∧
     (runC1.map (fun t => (t.2.db.getUser "u1").map User.status) =
      some (some .suspended)) ∧
     (runC1.map (fun t => t.2.events.map Event.type) = some [.userSuspended])) ∧
    (∀ (mode : EnforcementMode) (db : Db) (c : Cache) (uid : String) (u : User)
        (pkg : Package) (up down now : Int) (fuel : Nat),
      c.getUser uid = none → db.getUser uid = some u → u.canConnect = true →
      db.getPackageByUserID uid = some pkg → pkg.canUse now = false →
        (checkQuota mode db c uid up down now fuel).map
            (fun p => (p.1.canUse, p.1.quotaExceeded)) = some (false, false)) := by
  refine ⟨?_, ?_, ⟨by decide, by decide, by decide⟩, ?_⟩
  · intro mode db c uid u pkg up down now fuel hmiss hu hcc hpkg hcanuse hexceed
    have htl : checkTrafficLimits pkg up down = false :=
      checkTrafficLimits_exceeded pkg up down hexceed
    simp only [checkQuota, hmiss, checkQuotaMiss, hu, hcc, hpkg, hcanuse, htl,
      Bool.not_true, Bool.not_false, Bool.false_eq_true, if_false, if_true,
      Option.map_some']
  · intro mode db c uid pid cu pkg up down now fuel hcu hst hpid hpkg hpst hexp hexceed
    have hact : (cu.status != UserStatus.active) = false := by
      simp [hst]
    have hpa : (!pkg.isActive) = false := by
      simp [Package.isActive, hpst]
    by_cases t1 : (decide (pkg.totalTraffic > 0) &&
        decide (cu.currentTotal + up + down > pkg.totalTraffic)) = true
    · simp only [checkQuota, hcu, checkQuotaCached, hact, hpid, hpkg, hpa, hexp, t1,
        Bool.false_eq_true, if_false, if_true, Option.map_some']
    simp only [Bool.not_eq_true] at t1
    by_cases t2 : (decide (pkg.uploadLimit > 0) &&
        decide (cu.currentUpload + up > pkg.uploadLimit)) = true
    · simp only [checkQuota, hcu, checkQuotaCached, hact, hpid, hpkg, hpa, hexp, t1, t2,
        Bool.false_eq_true, if_false, if_true, Option.map_some']
    simp only [Bool.not_eq_true] at t2
    by_cases t3 : (decide (pkg.downloadLimit > 0) &&
        decide (cu.currentDownload + down > pkg.downloadLimit)) = true
    · simp only [checkQuota, hcu, checkQuotaCached, hact, hpid, hpkg, hpa, hexp, t1, t2,
        t3, Bool.false_eq_true, if_false, if_true, Option.map_some']
    simp only [Bool.not_eq_true] at t3
    simp only [Bool.and_eq_false_iff, decide_eq_false_iff_not, not_lt] at t1 t2 t3
    rcases hexceed with ⟨h1, h2⟩ | ⟨h1, h2⟩ | ⟨h1, h2⟩
    · rcases t1 with t1 | t1
      · exact absurd h1 (not_lt.mpr t1)
      · exact absurd h2 (not_lt.mpr t1)
    · rcases t2 with t2 | t2
      · exact absurd h1 (not_lt.mpr t2)
      · exact absurd h2 (not_lt.mpr t2)
    · rcases t3 with t3 | t3
      · exact absurd h1 (not_lt.mpr t3)
      · exact absurd h2 (not_lt.mpr t3)
  · intro mode db c uid u pkg up down now fuel hmiss hu hcc hpkg hcanuse
    simp only [checkQuota, hmiss, checkQuotaMiss, hu, hcc, hpkg, hcanuse,
      Bool.not_true, Bool.not_false, Bool.false_eq_true, if_false, if_true,
      Option.map_some']

/-- C1 witness: the scenario database (total 100, zero usage) with an empty
cache rejects report(70, 40) as traffic quota exceeded. -/
theorem checkQuota_rejects_over_limit_witness :
    (checkQuota .dflt dbC1 Cache.empty "u1" 70 40 0 10).map
        (fun p => (p.1.canUse, p.1.quotaExceeded, p.1.reason)) =
      some (false, true, "traffic quota exceeded") :=
  (checkQuota_rejects_over_limit).1 .dflt dbC1 Cache.empty "u1"
    { id := "u1", managerId := none, username := "tester", status := .active,
      activePackageId := some "p1", lastConnectionAt := none }
    { id := "p1", userId := "u1", totalLimit := 100, totalTraffic := 100,
      uploadLimit := 0, downloadLimit := 0, maxConcurrent := 2, status := .active,
      currentUpload := 0, currentDownload := 0, currentTotal := 0, expiresAt := none }
    70 40 0 10 rfl rfl (by decide) (by decide) (by decide)
    (Or.inl (by decide))

end HUE
